import Mathlib

/-!
Shallow embedding of the brute-force risk estimation engine of the
WiFi_chekcer repository (file `bruteforce` module, exported as
`simulateBruteForceAttack`, `simulateDictionaryAttack`,
`enhancedPasswordStrengthAssessment`, the three password generators and
their helpers).

Conventions of the embedding:
* JavaScript strings are Lean `String`s; `s.toLowerCase()`, `s.toUpperCase()`,
  `replace`, `repeat`, `padEnd` and `substr` are given structurally recursive
  character-level implementations so that theorems can evaluate them.
* JavaScript numbers are `Nat`, `Int` or `ℚ` depending on use; the magnitudes
  involved in the integer computations below are far under 2^53, where
  JavaScript doubles are exact.
* `x || d` (falsy-default) on string values is modelled by `jsFalsyOr`
  (the empty string is falsy); optional object fields are `Option`s.
* Every ambient `Math.random()` call site receives its draws from an explicit
  randomness structure passed as a parameter; a raw draw `u : Nat` stands for
  `Math.floor(Math.random() * k)` via `u % k`, and each `Math.random() < p`
  test is a `Bool` field.
* Presentation-only numeric formatting (`toLocaleString`, `toExponential`)
  is kept as the unformatted numeric value; `toFixed` is modelled by exact
  rational rounding.
-/

/-- JavaScript `s.toLowerCase()` (character-wise, as a structurally recursive
map so that proofs can evaluate it). -/
def strToLower (s : String) : String :=
  ⟨s.data.map Char.toLower⟩

/-- JavaScript `s.toUpperCase()`. -/
def strToUpper (s : String) : String :=
  ⟨s.data.map Char.toUpper⟩

/-- JavaScript `s.substring`-style prefix of the first `n` characters. -/
def strTake (s : String) (n : Nat) : String :=
  ⟨s.data.take n⟩

/-- JavaScript `s || d` for a string value: the empty string is falsy. -/
def jsFalsyOr (s d : String) : String :=
  if s = "" then d else s

/-- Semantics of `[...new Set(list)]`: keep the first occurrence of every
element, in encounter order. -/
def jsSetDedup (l : List String) : List String :=
  l.foldl (fun acc x => if x ∈ acc then acc else acc ++ [x]) []

/-- Replaces the first occurrence of the (non-empty) pattern in a character
list, leaving the list unchanged when the pattern does not occur. -/
def replaceFirstChars (pat repl : List Char) : List Char → List Char
  | [] => []
  | c :: rest =>
    if pat.isPrefixOf (c :: rest) then repl ++ (c :: rest).drop pat.length
    else c :: replaceFirstChars pat repl rest

/-- JavaScript `String.prototype.replace` with a plain-string pattern:
replaces only the first occurrence. -/
def jsReplaceFirst (s pat repl : String) : String :=
  ⟨replaceFirstChars pat.data repl.data s.data⟩

/-- JavaScript `String.prototype.replace` with a single-character global
regular expression (the only regex form the source uses): replaces every
occurrence of the character. -/
def jsReplaceCharAll (s : String) (letter : Char) (repl : String) : String :=
  ⟨s.data.flatMap (fun c => if c = letter then repl.data else [c])⟩

/-- JavaScript `'str'.repeat(n)`. -/
def jsRepeat (s : String) (n : Nat) : String :=
  ⟨(List.replicate n s.data).flatten⟩

/-- JavaScript `s.padEnd(n, fill)`: pads on the right with `fill` repeated
cyclically, up to total length `n`; a target at or below the current length
(including a negative one) leaves the string unchanged. -/
def jsPadEnd (s : String) (n : Int) (fill : String) : String :=
  if fill = "" then s
  else if n ≤ (s.length : Int) then s
  else s ++ strTake (jsRepeat fill (n.toNat - s.length)) (n.toNat - s.length)

/-- JavaScript `s.substr(0, len)`: a negative length yields the empty string. -/
def jsSubstr (s : String) (len : Int) : String :=
  if len ≤ 0 then "" else strTake s len.toNat

/-- JavaScript `Math.ceil(n / d)` for natural `n` and positive natural `d`
(the quotients in this module are exact in double precision). -/
def jsCeilDiv (n d : Nat) : Nat :=
  (n + d - 1) / d

/-! ## Static password data tables (`COMMON_WIFI_PASSWORDS`) -/

/-- The `top100` list of `COMMON_WIFI_PASSWORDS` (it actually holds 125
entries). -/
def top100 : List String :=
  ["password", "12345678", "password123", "admin", "qwerty123",
   "password1", "123456789", "welcome", "internet", "wifi",
   "changeme", "guest", "letmein", "connect", "wireless",
   "mypassword", "default", "secret", "00000000", "11111111",
   "router", "netgear", "linksys", "dlink", "access",
   "security", "network", "home", "family", "private",
   "test123", "admin123", "root123", "user123", "demo123",
   "temp123", "pass123", "1qaz2wsx", "qwerty", "abc123",
   "trustno1", "monkey", "dragon", "mustang", "starwars",
   "football", "baseball", "basketball", "soccer", "hockey",
   "princess", "sunshine", "iloveyou", "welcome1", "hello123",
   "computer", "freedom", "whatever", "michael", "jennifer",
   "superman", "batman", "master", "jordan", "harley",
   "robert", "matthew", "daniel", "andrew", "joshua",
   "anthony", "william", "david", "richard", "thomas",
   "charles", "steven", "dennis", "joseph", "nathan",
   "samantha", "gregory", "patrick", "benjamin", "zachary",
   "samsung", "apple123", "google123", "facebook", "twitter",
   "instagram", "youtube", "amazon123", "netflix", "spotify",
   "windows", "microsoft", "office365", "outlook", "hotmail",
   "gmail123", "yahoo123", "aol123", "verizon", "comcast",
   "spectrum", "xfinity", "frontier", "centurylink", "charter",
   "password!", "Password1", "Password123", "Welcome1", "Admin123",
   "qwertyui", "asdfghjk", "zxcvbnm", "poiuytre", "lkjhgfds",
   "123qwe", "321cba", "456def", "789ghi", "147adg"]

/-- The `routerDefaults` vendor table of `COMMON_WIFI_PASSWORDS`, as the
lookup `COMMON_WIFI_PASSWORDS.routerDefaults[vendor]`. -/
def routerDefaultsFor (vendor : String) : Option (List String) :=
  if vendor = "Netgear" then some ["password", "password1", "admin", "1234567890", "netgear123"]
  else if vendor = "Linksys" then some ["admin", "password", "linksys", "1234567890", "cisco123"]
  else if vendor = "D-Link" then some ["admin", "password", "dlink", "1234567890", "blank"]
  else if vendor = "TP-Link" then some ["admin", "password", "tplink", "1234567890", "tp123"]
  else if vendor = "ASUS" then some ["admin", "password", "asus", "1234567890", "router"]
  else if vendor = "Cisco" then some ["cisco", "password", "admin", "1234567890", "enable"]
  else if vendor = "Apple" then some ["public", "private", "apple", "airport", "express"]
  else if vendor = "Belkin" then some ["admin", "password", "belkin", "1234567890", "blank"]
  else if vendor = "Buffalo" then some ["admin", "password", "buffalo", "root", "1234567890"]
  else if vendor = "Motorola" then some ["motorola", "admin", "password", "1234567890", "operator"]
  else none

/-- The `ssidPatterns` templates of `COMMON_WIFI_PASSWORDS` (the source
literals contain the placeholder `{ssid}`, written escaped here). -/
def ssidPatterns : List String :=
  ["\x7bssid\x7d", "\x7bssid\x7d123", "\x7bssid\x7d1", "\x7bssid\x7d2023",
   "\x7bssid\x7d2024", "\x7bssid\x7d2025", "\x7bssid\x7d!",
   "\x7bssid\x7dpassword", "password\x7bssid\x7d", "\x7bssid\x7d_wifi",
   "\x7bssid\x7d_home", "\x7bssid\x7d_guest", "\x7bssid\x7d_secure",
   "\x7bssid\x7d_admin"]

/-- The `locationBased` list of `COMMON_WIFI_PASSWORDS`. -/
def locationBased : List String :=
  ["home123", "house123", "family123", "office123", "work123",
   "school123", "guest123", "visitor123", "public123", "cafe123",
   "restaurant", "hotel123", "apartment", "building", "room123",
   "floor123", "unit123", "suite123", "lobby123", "reception"]

/-- The `datePatterns` list of `COMMON_WIFI_PASSWORDS`. -/
def datePatterns : List String :=
  ["20232023", "20242024", "20252025", "12345678", "87654321",
   "01011970", "01012000", "12311999", "06151985", "04201990",
   "january1", "december", "birthday", "anniversary", "christmas"]

/-- The `brandNames` list of `COMMON_WIFI_PASSWORDS`. -/
def brandNames : List String :=
  ["google123", "microsoft", "facebook", "amazon123", "apple123",
   "samsung123", "intel123", "nvidia123", "amd123", "oracle123",
   "ibm123", "dell123", "hp123", "lenovo123", "huawei123"]

/-! ## Generation pattern tables (`PASSWORD_GENERATION_PATTERNS`) -/

/-- The `numberPatterns` list of `PASSWORD_GENERATION_PATTERNS`. -/
def numberPatterns : List String :=
  ["123", "321", "456", "789", "147", "258", "369",
   "000", "111", "222", "333", "444", "555", "666", "777", "888", "999",
   "12", "21", "34", "43", "56", "65", "78", "87", "90", "09",
   "2023", "2024", "2025", "1234", "4321", "6789", "9876"]

/-- The `specialPatterns` list of `PASSWORD_GENERATION_PATTERNS`. -/
def specialPatterns : List String :=
  ["!", "@", "#", "$", "%", "&", "*", "+", "=", "?",
   "!!", "@@", "##", "$$", "!@", "@#", "#$", "$%",
   "123!", "456@", "789#", "!@#", "@#$", "#$%"]

/-- The `substitutions` (leet-speak) table of `PASSWORD_GENERATION_PATTERNS`,
in the object-literal entry order used by `Object.entries`. -/
def leetSubstitutions : List (Char × List String) :=
  [('a', ["@", "4"]), ('e', ["3"]), ('i', ["1", "!"]), ('o', ["0"]),
   ('s', ["$", "5"]), ('t', ["7"]), ('l', ["1"]), ('g', ["9"])]

/-! ## Input descriptors and result records -/

/-- The `networkInfo` argument: only its `encryption` field is read by the
functions embedded here. -/
structure NetworkInfo where
  encryption : String
deriving DecidableEq

/-- The `routerInfo` argument (the whole object may be `null`, hence wrapped
in `Option` at use sites); its `vendor` field is itself optional. -/
structure RouterInfo where
  vendor : Option String
deriving DecidableEq

/-- Models the JavaScript guard `routerInfo && routerInfo.vendor &&
COMMON_WIFI_PASSWORDS.routerDefaults[routerInfo.vendor]`, returning the
vendor name together with its default-password list when all three
conjuncts are truthy. -/
def vendorDefaultsOf (routerInfo : Option RouterInfo) : Option (String × List String) :=
  match routerInfo with
  | none => none
  | some ri =>
    match ri.vendor with
    | none => none
    | some v => if v = "" then none else (routerDefaultsFor v).map (fun defs => (v, defs))

/-- Models the weaker guard `routerInfo && routerInfo.vendor` (no table
lookup), used by the generators. -/
def vendorOf (routerInfo : Option RouterInfo) : Option String :=
  match routerInfo with
  | none => none
  | some ri =>
    match ri.vendor with
    | none => none
    | some v => if v = "" then none else some v

/-- A simulated cracked-password record. The source builds plain objects
whose field sets differ slightly per category: SSID/default/weak matches
carry a `risk` field, generated-pattern cracks a `method` field; the absent
one is `none` here. -/
structure CrackResult where
  password : String
  category : String
  risk : Option String
  method : Option String
  reason : String
  crackedIn : Nat
  attempts : Nat
deriving DecidableEq

/-- The `results.passwordCategories` object: `routerDefaults` is only set
when the vendor is known, the other four keys are always set. -/
structure PasswordCategories where
  routerDefaults : Option Nat
  ssidBased : Nat
  locationBased : Nat
  dateBased : Nat
  brandBased : Nat
deriving DecidableEq

/-- Randomness consumed by `simulateDictionaryAttack`: one raw draw per
`Math.random()` call site (`u % k` models `Math.floor(Math.random()*k)`),
and one `Bool` per probability test. -/
structure DictRand where
  ssidCrackedInDraw : Nat → Nat
  ssidAttemptsDraw : Nat → Nat
  vendorDefaultFound : Bool
  vendorDefaultPick : Nat
  vendorCrackedInDraw : Nat
  vendorAttemptsDraw : Nat
  weakFound : Bool
  weakPick : Nat
  weakCrackedInDraw : Nat
  weakAttemptsDraw : Nat

/-- The record returned by `simulateDictionaryAttack`. -/
structure DictionaryAttackResults where
  testedPasswords : Nat
  potentialMatches : List CrackResult
  attackSuccess : Bool
  timeToBreak : Nat
  passwordCategories : PasswordCategories
  vulnerablePatterns : List String
  successfulCracks : List CrackResult

/-! ## Dictionary-attack simulator -/

/-- The SSID-derived candidate passwords: each `{ssid}` template
instantiated with the ssid, or with `"network"` when the ssid is falsy. -/
def ssidPasswordsFor (ssid : String) : List String :=
  ssidPatterns.map (fun p => jsReplaceFirst p "\x7bssid\x7d" (jsFalsyOr ssid "network"))

/-- The deduplicated combined candidate list built at the start of
`simulateDictionaryAttack`: top100, then vendor defaults (if known), then
SSID patterns, then location/date/brand lists, deduplicated preserving
first occurrences. -/
def dictionaryCandidateList (ssid : String) (routerInfo : Option RouterInfo) : List String :=
  jsSetDedup (top100 ++ ((vendorDefaultsOf routerInfo).elim [] Prod.snd)
    ++ ssidPasswordsFor ssid ++ locationBased ++ datePatterns ++ brandNames)

/-- The `vulnerableSSIDPatterns` local list of `simulateDictionaryAttack`. -/
def vulnerableSSIDPatterns (ssid : String) : List String :=
  let s := strToLower ssid
  [s, s ++ "123", s ++ "1", s ++ "2024", s ++ "2025", "password" ++ s,
   s ++ "wifi", s ++ "password", s ++ "!", s ++ "@"]

/-- The `commonWeakPasswords` local list of `simulateDictionaryAttack`. -/
def commonWeakPasswords : List String :=
  ["password", "12345678", "password123", "admin", "qwerty123"]

/-- Embedding of `simulateDictionaryAttack(ssid, networkInfo, routerInfo)`. -/
def simulateDictionaryAttack (ssid : String) (networkInfo : NetworkInfo)
    (routerInfo : Option RouterInfo) (rand : DictRand) : DictionaryAttackResults :=
  let passwordList := dictionaryCandidateList ssid routerInfo
  let ssidHits : List (Nat × String) :=
    if ssid = "" then []
    else (vulnerableSSIDPatterns ssid).enum.filter (fun ip => ip.2 ∈ passwordList)
  let ssidMatches : List CrackResult := ssidHits.map (fun ip =>
    { password := ip.2, category := "SSID-based", risk := some "HIGH", method := none,
      reason := "Password derived from network name",
      crackedIn := rand.ssidCrackedInDraw ip.1 % 30 + 1,
      attempts := rand.ssidAttemptsDraw ip.1 % 1000 + 1 })
  let vendorMatches : List CrackResult :=
    match vendorDefaultsOf routerInfo with
    | some (v, defs) =>
      if rand.vendorDefaultFound then
        [{ password := defs.getD (rand.vendorDefaultPick % defs.length) "",
           category := "Router Default", risk := some "CRITICAL", method := none,
           reason := "Common " ++ v ++ " default password",
           crackedIn := rand.vendorCrackedInDraw % 10 + 1,
           attempts := rand.vendorAttemptsDraw % 50 + 1 }]
      else []
    | none => []
  let weakMatches : List CrackResult :=
    if rand.weakFound then
      [{ password := commonWeakPasswords.getD (rand.weakPick % commonWeakPasswords.length) "",
         category := "Common Weak", risk := some "CRITICAL", method := none,
         reason := "Top 100 most common passwords",
         crackedIn := rand.weakCrackedInDraw % 5 + 1,
         attempts := rand.weakAttemptsDraw % 25 + 1 }]
    else []
  let potentialMatches := ssidMatches ++ vendorMatches ++ weakMatches
  let attackSpeedPerSecond : Nat :=
    if networkInfo.encryption = "WPA3" then 100
    else if networkInfo.encryption = "WPA2" then 1000
    else if networkInfo.encryption = "WPA" then 5000
    else 10000
  { testedPasswords := passwordList.length
    potentialMatches := potentialMatches
    attackSuccess := decide (0 < potentialMatches.length) ||
      (networkInfo.encryption == "WEP" || networkInfo.encryption == "OPEN")
    timeToBreak := jsCeilDiv passwordList.length attackSpeedPerSecond
    passwordCategories :=
      { routerDefaults := (vendorDefaultsOf routerInfo).map (fun p => p.2.length)
        ssidBased := (ssidPasswordsFor ssid).length
        locationBased := locationBased.length
        dateBased := datePatterns.length
        brandBased := brandNames.length }
    vulnerablePatterns := ssidHits.map (fun ip => "SSID-based pattern: " ++ ip.2)
    successfulCracks := potentialMatches }

/-! ## Password generators -/

/-- Embedding of `generateWordCombinations(ssid, routerInfo)`. -/
def generateWordCombinations (ssid : String) (routerInfo : Option RouterInfo) : List String :=
  let baseWords : List String :=
    ["wifi", "home", "network", "secure", "access", "connect"]
      ++ (if ssid = "" then [] else [strToLower ssid])
      ++ ((vendorOf routerInfo).elim [] (fun v => [strToLower v]))
  jsSetDedup (baseWords.flatMap (fun word1 =>
    (baseWords.flatMap (fun word2 =>
      if word1 ≠ word2 then
        [word1 ++ word2, word1 ++ word2 ++ "123", word1 ++ word2 ++ "!",
         word1 ++ "_" ++ word2, word1 ++ "-" ++ word2, word1 ++ "@" ++ word2]
      else []))
    ++ (numberPatterns.flatMap (fun number => [word1 ++ number, number ++ word1]))
    ++ (specialPatterns.flatMap (fun special => [word1 ++ special, special ++ word1]))))

/-- Embedding of `applyLeetSpeak(word)`: lowercases the word and, for each
substitution-table entry in order, replaces every occurrence of the letter
by one randomly chosen substitute (`choice i` is the raw draw for the i-th
table entry). -/
def applyLeetSpeak (word : String) (choice : Nat → Nat) : String :=
  (leetSubstitutions.enum).foldl
    (fun result entry =>
      let repls := entry.2.2
      jsReplaceCharAll result entry.2.1 (repls.getD (choice entry.1 % repls.length) ""))
    (strToLower word)

/-- The fixed list of pattern closures of `generatePatternBasedPasswords`,
parameterised by the current year (`new Date().getFullYear()`) and the
leet-speak randomness. -/
def patternRules (year : Nat) (choice : Nat → Nat) : List (String → String) :=
  [fun base => base ++ "2025" ++ "!" ++ jsPadEnd "" (16 - (base.length : Int) - 5) "0",
   fun base => base ++ "123456" ++ "@" ++ jsPadEnd "" (16 - (base.length : Int) - 7) "x",
   fun base => base ++ "Pass" ++ "2025" ++ "!" ++ jsPadEnd "" (16 - (base.length : Int) - 9) "1",
   fun base => jsSubstr (base ++ base) 12 ++ "2025",
   fun base => base ++ jsSubstr (base ++ "123") (16 - (base.length : Int)),
   fun base => applyLeetSpeak base choice ++ "123456",
   fun base => strToUpper base ++ strToLower base,
   fun base => base ++ jsSubstr "qwerty123456" (16 - (base.length : Int)),
   fun base => base ++ jsSubstr "asdfgh123456" (16 - (base.length : Int)),
   fun base => base ++ toString year ++ "HOME",
   fun base => base ++ "Family" ++ "2025" ++ "!"]

/-- Embedding of `generatePatternBasedPasswords(ssid, networkInfo)` (the
`networkInfo` argument is never read by the source body). Each generated
string is kept only when its length is at most 16. -/
def generatePatternBasedPasswords (ssid : String) (_networkInfo : NetworkInfo)
    (year : Nat) (choice : Nat → Nat) : List String :=
  let baseWords := [jsFalsyOr ssid "WiFi", "Home", "Secure", "Network", "Router"]
  jsSetDedup (baseWords.flatMap (fun base =>
    ((patternRules year choice).map (fun rule => rule base)).filter
      (fun generated => generated.length ≤ 16)))

/-- Embedding of `capitalizeFirst(str)`. -/
def capitalizeFirst (str : String) : String :=
  match str.data with
  | [] => str
  | c :: rest => ⟨Char.toUpper c :: rest⟩

/-- Embedding of `generateHybridPasswords(ssid, networkInfo, routerInfo)`
(the `networkInfo` argument is never read by the source body). -/
def generateHybridPasswords (ssid : String) (_networkInfo : NetworkInfo)
    (routerInfo : Option RouterInfo) : List String :=
  let base := jsFalsyOr ssid "Network"
  let paddingWords := ["Secure", "Safe", "Home", "WiFi", "Access"]
  let paddingPart := paddingWords.flatMap (fun padding =>
    let combined := base ++ padding
    if combined.length < 16 then
      let remaining := 16 - combined.length
      [combined ++ jsSubstr (jsRepeat "2025" (jsCeilDiv remaining 4)) (remaining : Int),
       combined ++ jsSubstr (jsRepeat "123!" (jsCeilDiv remaining 4)) (remaining : Int),
       combined ++ jsSubstr (jsRepeat "abcd" (jsCeilDiv remaining 4)) (remaining : Int)]
    else [])
  let vendorPart :=
    match vendorOf routerInfo with
    | some vendor =>
      [jsSubstr (vendor ++ "HomeNetwork25") 16,
       jsSubstr (vendor ++ "Office2025!!") 16,
       jsSubstr (base ++ vendor ++ "2025") 16]
    | none => []
  let keyboardPatterns := ["qwertyuiopasdfgh", "asdfghjklzxcvbnm", "1234567890qwerty"]
  let keyboardPart := keyboardPatterns.flatMap (fun pattern =>
    [pattern, strToUpper pattern, capitalizeFirst pattern])
  let phrases := ["ilovemyfamily16", "securenetwork25", "homeinternetok", "familywifipass"]
  jsSetDedup (paddingPart ++ vendorPart ++ keyboardPart ++ phrases)

/-! ## Generation-attack simulator -/

/-- One entry of `results.generationStrategies`. -/
structure GenStrategy where
  name : String
  count : Nat
  examples : List String
  successRate : Nat
deriving DecidableEq

/-- The record returned by `analyzePasswordPatterns`. -/
structure PatternAnalysis where
  ssidBasedVulnerability : String
  commonPatternRisk : String
  dictionaryWordRisk : String
  keyboardPatternRisk : String
  datePatternRisk : String
  lengthAdequacy : String
  overallPatternWeakness : String
deriving DecidableEq

/-- Randomness consumed by `simulateIntelligentPasswordGeneration`. -/
structure GenRand where
  ssidCrackedInDraw : Nat → Nat
  ssidAttemptsDraw : Nat → Nat
  vendorCrackedInDraw : Nat
  vendorAttemptsDraw : Nat

/-- The record returned by `simulateIntelligentPasswordGeneration` (its
`potentialWeaknesses` field is initialised empty and never filled by the
source). -/
structure GenerationResults where
  generatedPasswords : Nat
  generationStrategies : List GenStrategy
  estimatedSuccessRate : Nat
  timeToGenerate : Nat
  patternAnalysis : PatternAnalysis
  potentialWeaknesses : List String
  successfulGeneratedCracks : List CrackResult

/-- Embedding of `analyzePasswordPatterns(ssid, networkInfo)`. -/
def analyzePasswordPatterns (ssid : String) (_networkInfo : NetworkInfo) : PatternAnalysis :=
  { ssidBasedVulnerability := if ssid = "" then "LOW" else "HIGH"
    commonPatternRisk := "MEDIUM"
    dictionaryWordRisk := "HIGH"
    keyboardPatternRisk := "MEDIUM"
    datePatternRisk := "HIGH"
    lengthAdequacy := "DEPENDS_ON_COMPLEXITY"
    overallPatternWeakness := "MODERATE_TO_HIGH" }

/-- Embedding of `simulateIntelligentPasswordGeneration(ssid, networkInfo,
routerInfo)`. -/
def simulateIntelligentPasswordGeneration (ssid : String) (networkInfo : NetworkInfo)
    (routerInfo : Option RouterInfo) (year : Nat) (choice : Nat → Nat)
    (rand : GenRand) : GenerationResults :=
  let wordCombos := generateWordCombinations ssid routerInfo
  let patternPasswords := generatePatternBasedPasswords ssid networkInfo year choice
  let hybridPasswords := generateHybridPasswords ssid networkInfo routerInfo
  let strategies : List GenStrategy :=
    [{ name := "Word Combinations", count := wordCombos.length,
       examples := wordCombos.take 5, successRate := 15 },
     { name := "Pattern-Based", count := patternPasswords.length,
       examples := patternPasswords.take 5, successRate := 25 },
     { name := "Hybrid Generation", count := hybridPasswords.length,
       examples := hybridPasswords.take 5, successRate := 35 }]
  let generated := strategies.foldl (fun sum s => sum + s.count) 0
  let successRate := (strategies.map (fun s => s.successRate)).foldl max 0
  let cracks : List CrackResult :=
    if 25 < successRate then
      (if ssid = "" then [] else
        let s := strToLower ssid
        let ssidBasedCracks := [s ++ "2025", s ++ "home", s ++ "wifi123",
                                "secure" ++ s, s ++ "@home"]
        ((ssidBasedCracks.take 2).enum).map (fun ip =>
          { password := ip.2, category := "Generated Pattern", risk := none,
            method := some "SSID + Common Pattern",
            reason := "Predictable pattern based on network name",
            crackedIn := rand.ssidCrackedInDraw ip.1 % 300 + 60,
            attempts := rand.ssidAttemptsDraw ip.1 % 10000 + 1000 }))
      ++ (match vendorOf routerInfo with
          | some v =>
            [{ password := strToLower v ++ "home25", category := "Generated Pattern",
               risk := none, method := some "Vendor + Pattern",
               reason := "Pattern based on router vendor",
               crackedIn := rand.vendorCrackedInDraw % 600 + 120,
               attempts := rand.vendorAttemptsDraw % 50000 + 5000 }]
          | none => [])
    else []
  { generatedPasswords := generated
    generationStrategies := strategies
    estimatedSuccessRate := successRate
    timeToGenerate := jsCeilDiv generated 100000
    patternAnalysis := analyzePasswordPatterns ssid networkInfo
    potentialWeaknesses := []
    successfulGeneratedCracks := cracks }

/-! ## Combiner, risk classifier, recommendations -/

/-- The record returned by `combineAttackResults`. -/
structure CombinedAssessment where
  totalPasswordsTested : Nat
  combinedSuccessRate : Nat
  fastestAttackVector : String
  vulnerabilityLevel : String
  recommendedDefenses : List String
deriving DecidableEq

/-- Embedding of `combineAttackResults(dictionaryResults, generationResults)`. -/
def combineAttackResults (dictionaryResults : DictionaryAttackResults)
    (generationResults : GenerationResults) : CombinedAssessment :=
  { totalPasswordsTested :=
      dictionaryResults.testedPasswords + generationResults.generatedPasswords
    combinedSuccessRate :=
      max (if dictionaryResults.attackSuccess then 90 else 20)
        generationResults.estimatedSuccessRate
    fastestAttackVector :=
      if dictionaryResults.timeToBreak < generationResults.timeToGenerate then
        "Dictionary Attack"
      else "Intelligent Generation"
    vulnerabilityLevel :=
      if 0 < dictionaryResults.potentialMatches.length then "HIGH"
      else if 30 < generationResults.estimatedSuccessRate then "MEDIUM"
      else "LOW"
    recommendedDefenses := [] }

/-- Embedding of `calculateOverallRiskLevel(overallAssessment, networkInfo)`. -/
def calculateOverallRiskLevel (overallAssessment : CombinedAssessment)
    (networkInfo : NetworkInfo) : String :=
  if networkInfo.encryption = "OPEN" then "CRITICAL"
  else if networkInfo.encryption = "WEP" then "CRITICAL"
  else if overallAssessment.vulnerabilityLevel = "HIGH" then "HIGH"
  else if networkInfo.encryption = "WPA" then "HIGH"
  else if overallAssessment.vulnerabilityLevel = "MEDIUM" then "MEDIUM"
  else if networkInfo.encryption = "WPA2" then "MEDIUM"
  else "LOW"

/-- Embedding of `generateSecurityRecommendations(overallAssessment,
networkInfo)`. -/
def generateSecurityRecommendations (overallAssessment : CombinedAssessment)
    (networkInfo : NetworkInfo) : List String :=
  (if networkInfo.encryption = "OPEN" then
    ["🚨 CRITICAL: Enable WPA3 or WPA2 encryption immediately"] else [])
  ++ (if networkInfo.encryption = "WEP" then
    ["🚨 CRITICAL: Upgrade from WEP to WPA3 encryption"] else [])
  ++ (if overallAssessment.vulnerabilityLevel = "HIGH" then
    ["🔴 Use a 16+ character password with mixed case, numbers, and symbols",
     "🔴 Avoid passwords based on network name (SSID)",
     "🔴 Avoid common dictionary words and predictable patterns"] else [])
  ++ ["🔵 Use WPA3 encryption if available",
      "🔵 Enable MAC address filtering for additional security",
      "🔵 Regularly update router firmware",
      "🔵 Use a unique password not used elsewhere",
      "🔵 Consider a password manager for complex passwords"]
  ++ (if 50 < overallAssessment.combinedSuccessRate then
    ["⚡ Consider changing password immediately - high crack probability"] else [])

/-- Embedding of `calculateRealisticCrackTime(overallAssessment, networkInfo)`
(the `baseTime[encryption] || 'Unknown'` lookup, then the vulnerability
overrides). -/
def calculateRealisticCrackTime (overallAssessment : CombinedAssessment)
    (networkInfo : NetworkInfo) : String :=
  let baseEstimate :=
    if networkInfo.encryption = "OPEN" then "Instant (no password)"
    else if networkInfo.encryption = "WEP" then "1-10 minutes (regardless of password)"
    else if networkInfo.encryption = "WPA" then "1 hour - 1 week (depending on password)"
    else if networkInfo.encryption = "WPA2" then "1 day - 100 years (depending on password)"
    else if networkInfo.encryption = "WPA3" then "10 years - never (with strong password)"
    else "Unknown"
  if overallAssessment.vulnerabilityLevel = "HIGH" then
    "Minutes to hours (weak password detected)"
  else if overallAssessment.vulnerabilityLevel = "MEDIUM" then
    "Hours to days (moderate password strength)"
  else baseEstimate

/-- The record returned by `enhancedPasswordStrengthAssessment`. -/
structure EnhancedAssessmentResults where
  dictionaryResults : DictionaryAttackResults
  generatedPasswordResults : GenerationResults
  overallAssessment : CombinedAssessment
  recommendations : List String
  estimatedCrackTime : String
  riskLevel : String

/-- Embedding of `enhancedPasswordStrengthAssessment(ssid, networkInfo,
routerInfo)`. -/
def enhancedPasswordStrengthAssessment (ssid : String) (networkInfo : NetworkInfo)
    (routerInfo : Option RouterInfo) (year : Nat) (choice : Nat → Nat)
    (drand : DictRand) (grand : GenRand) : EnhancedAssessmentResults :=
  let dictionaryResults := simulateDictionaryAttack ssid networkInfo routerInfo drand
  let generatedPasswordResults :=
    simulateIntelligentPasswordGeneration ssid networkInfo routerInfo year choice grand
  let overallAssessment := combineAttackResults dictionaryResults generatedPasswordResults
  { dictionaryResults := dictionaryResults
    generatedPasswordResults := generatedPasswordResults
    overallAssessment := overallAssessment
    recommendations := generateSecurityRecommendations overallAssessment networkInfo
    estimatedCrackTime := calculateRealisticCrackTime overallAssessment networkInfo
    riskLevel := calculateOverallRiskLevel overallAssessment networkInfo }

/-! ## Legacy closed-form simulator (`simulateBruteForceAttack`) -/

/-- Embedding of `calculateAttemptsPerSecond(encryption)`. -/
def calculateAttemptsPerSecond (encryption : String) : ℚ :=
  if encryption = "WPA3" then 100
  else if encryption = "WPA2" then 20000
  else if encryption = "WPA" then 50000
  else if encryption = "WEP" then 1000000
  else 10000

/-- Embedding of `getCharsetSize(complexity)` (a `switch` on
`complexity.toLowerCase()`). -/
def getCharsetSize (complexity : String) : Nat :=
  if strToLower complexity = "high" then 95
  else if strToLower complexity = "medium" then 62
  else if strToLower complexity = "low" then 36
  else 26

/-- Embedding of `assessAttackFeasibility(secondsNeeded)`. -/
def assessAttackFeasibility (secondsNeeded : ℚ) : String :=
  if secondsNeeded < 3600 then "CRITICAL - Password can be broken in less than an hour"
  else if secondsNeeded < 86400 then "HIGH RISK - Password can be broken in less than a day"
  else if secondsNeeded < 604800 then "RISKY - Password can be broken in less than a week"
  else if secondsNeeded < 2592000 then "MODERATE - Password would take up to a month to break"
  else if secondsNeeded < 31536000 then "LOW RISK - Password would take months to break"
  else if secondsNeeded < 315360000 then "STRONG - Password would take years to break"
  else "VERY STRONG - Password would take decades to break"

/-- JavaScript `x.toFixed(digits)` on the exact rational value, rounding half
away from zero upward (the callers below only format non-negative values). -/
def qToFixed (q : ℚ) (digits : Nat) : String :=
  let pow10 : Int := (10 : Int) ^ digits
  let n : Int := ⌊q * (pow10 : ℚ) + 1 / 2⌋
  let fracStr := toString (n % pow10).toNat
  if digits = 0 then toString (n / pow10)
  else toString (n / pow10) ++ "." ++ jsRepeat "0" (digits - fracStr.length) ++ fracStr

/-- Embedding of `formatTimeEstimate(seconds)`. -/
def formatTimeEstimate (seconds : ℚ) : String :=
  if seconds < 60 then qToFixed seconds 1 ++ " seconds"
  else if seconds < 3600 then qToFixed (seconds / 60) 1 ++ " minutes"
  else if seconds < 86400 then qToFixed (seconds / 3600) 1 ++ " hours"
  else if seconds < 604800 then qToFixed (seconds / 86400) 1 ++ " days"
  else if seconds < 2592000 then qToFixed (seconds / 604800) 1 ++ " weeks"
  else if seconds < 31536000 then qToFixed (seconds / 2592000) 1 ++ " months"
  else if seconds < 315360000 then qToFixed (seconds / 31536000) 1 ++ " years"
  else qToFixed (seconds / 315360000) 1 ++ " decades"

/-- The record returned by `generateProgressVisualization`. -/
structure ProgressData where
  progressPercentage : ℚ
  visualization : String

/-- Embedding of `generateProgressVisualization(totalSeconds, timeLimit)`. -/
def generateProgressVisualization (totalSeconds timeLimit : ℚ) : ProgressData :=
  let effectiveTimeLimit := min timeLimit 3600
  let progressPercentage := effectiveTimeLimit / totalSeconds * 100
  let cappedPercentage := min progressPercentage 100
  let barLength : Nat := 30
  let filledBars := (⌊cappedPercentage / 100 * (barLength : ℚ)⌋).toNat
  let emptyBars := barLength - filledBars
  { progressPercentage := progressPercentage
    visualization := "[" ++ jsRepeat "#" filledBars ++ jsRepeat "-" emptyBars
      ++ "] " ++ qToFixed cappedPercentage 2 ++ "%" }

/-- The loosely-shaped `options` object of `simulateBruteForceAttack`;
absent fields are `none`. -/
structure BFOptions where
  passwordLength : Option Int
  passwordComplexity : Option String
  attemptsPerSecond : Option ℚ
  timeLimit : Option ℚ

/-- The `passwordMetrics` part of the legacy simulation result
(`possibleCombinations` is kept as the exact rational the source formats
with `toExponential(2)`). -/
structure BFPasswordMetrics where
  estimatedLength : Int
  estimatedComplexity : String
  possibleCombinations : ℚ
  charsetSize : Nat

/-- The `attackSimulation` part of the legacy simulation result
(`attemptsPerSecond` is kept numeric where the source applies
`toLocaleString`). -/
structure BFAttackSimulation where
  attemptsPerSecond : ℚ
  estimatedTimeToBreak : String
  feasibilityAssessment : String
  progressAfterOneHour : String
  progressVisualization : String

/-- The record returned by `simulateBruteForceAttack`. -/
structure BruteForceSimulationResults where
  encryption : String
  passwordMetrics : BFPasswordMetrics
  attackSimulation : BFAttackSimulation
  educationalTakeaways : List String

/-- Embedding of `simulateBruteForceAttack(encryption, options)`. The
source builds `config` as an object literal whose entries first write
falsy-or defaults (`options.passwordLength || 8`, ...) and then spread
`...options` LAST, so any key present on `options` overrides the defaulted
value — even a falsy one such as `0`. Hence a present key is used as-is
and only an absent key falls back to its default. -/
def simulateBruteForceAttack (encryption : String) (options : BFOptions) :
    BruteForceSimulationResults :=
  let passwordLength := options.passwordLength.getD 8
  let passwordComplexity := options.passwordComplexity.getD "medium"
  let attemptsPerSecond :=
    options.attemptsPerSecond.getD (calculateAttemptsPerSecond encryption)
  let timeLimit := options.timeLimit.getD 3600
  let charsetSize := getCharsetSize passwordComplexity
  let passwordSpace : ℚ := (charsetSize : ℚ) ^ passwordLength
  let secondsNeeded := passwordSpace / attemptsPerSecond
  let progressData := generateProgressVisualization secondsNeeded timeLimit
  { encryption := encryption
    passwordMetrics :=
      { estimatedLength := passwordLength
        estimatedComplexity := passwordComplexity
        possibleCombinations := passwordSpace
        charsetSize := charsetSize }
    attackSimulation :=
      { attemptsPerSecond := attemptsPerSecond
        estimatedTimeToBreak := formatTimeEstimate secondsNeeded
        feasibilityAssessment := assessAttackFeasibility secondsNeeded
        progressAfterOneHour := qToFixed progressData.progressPercentage 8 ++ "%"
        progressVisualization := progressData.visualization }
    educationalTakeaways :=
      ["Adding just 2 more characters to your password would increase cracking time by "
         ++ toString charsetSize ++ "² (" ++ toString (charsetSize ^ 2) ++ ") times",
       "Using a more complex character set with symbols and numbers can increase security significantly",
       (if encryption = "WPA3" then
          "WPA3 provides additional protections against offline attacks, making brute forcing much harder"
        else "WPA3 would provide better protection against this type of attack"),
       "Passwords shorter than 12 characters should be considered vulnerable regardless of complexity"] }

/-! ## Helper lemmas -/

/-- Membership is preserved by the fold underlying `jsSetDedup`. -/
lemma mem_dedupFold (l : List String) (acc : List String) (x : String) :
    x ∈ l.foldl (fun acc y => if y ∈ acc then acc else acc ++ [y]) acc ↔
      x ∈ acc ∨ x ∈ l := by
  induction l generalizing acc with
  | nil => simp
  | cons y ys ih =>
    simp only [List.foldl_cons]
    by_cases hy : y ∈ acc
    · rw [if_pos hy, ih]
      simp only [List.mem_cons]
      constructor
      · rintro (h | h)
        · exact Or.inl h
        · exact Or.inr (Or.inr h)
      · rintro (h | rfl | h)
        · exact Or.inl h
        · exact Or.inl hy
        · exact Or.inr h
    · rw [if_neg hy, ih]
      simp only [List.mem_append, List.mem_singleton, List.mem_cons]
      tauto

/-- The fold underlying `jsSetDedup` preserves freedom from duplicates. -/
lemma nodup_dedupFold (l : List String) (acc : List String) (h : acc.Nodup) :
    (l.foldl (fun acc y => if y ∈ acc then acc else acc ++ [y]) acc).Nodup := by
  induction l generalizing acc with
  | nil => simpa
  | cons y ys ih =>
    simp only [List.foldl_cons]
    by_cases hy : y ∈ acc
    · rw [if_pos hy]; exact ih _ h
    · rw [if_neg hy]
      exact ih _ (by simp [List.nodup_append, h, hy])

/-- The fold underlying `jsSetDedup` does not grow beyond the combined input
length. -/
lemma length_dedupFold_le (l : List String) (acc : List String) :
    (l.foldl (fun acc y => if y ∈ acc then acc else acc ++ [y]) acc).length ≤
      acc.length + l.length := by
  induction l generalizing acc with
  | nil => simp
  | cons y ys ih =>
    simp only [List.foldl_cons]
    by_cases hy : y ∈ acc
    · rw [if_pos hy]
      have := ih acc
      simp only [List.length_cons]
      omega
    · rw [if_neg hy]
      have := ih (acc ++ [y])
      simp only [List.length_append, List.length_cons, List.length_nil] at this ⊢
      omega

/-- `jsSetDedup` keeps exactly the elements of its input. -/
lemma jsSetDedup_mem (l : List String) (x : String) : x ∈ jsSetDedup l ↔ x ∈ l := by
  unfold jsSetDedup
  rw [mem_dedupFold]
  simp

/-- `jsSetDedup` returns a list with no duplicate entries. -/
lemma jsSetDedup_nodup (l : List String) : (jsSetDedup l).Nodup :=
  nodup_dedupFold l [] List.nodup_nil

/-- `jsSetDedup` never lengthens its input. -/
lemma jsSetDedup_length_le (l : List String) : (jsSetDedup l).length ≤ l.length := by
  have := length_dedupFold_le l []
  simpa [jsSetDedup] using this

/-- The integer formula `(n + d - 1) / d` used to embed `Math.ceil(n / d)`
agrees with the rational ceiling. -/
lemma jsCeilDiv_eq_ceil (n d : Nat) (hd : 0 < d) :
    (jsCeilDiv n d : ℤ) = ⌈(n : ℚ) / (d : ℚ)⌉ := by
  rcases Nat.eq_zero_or_pos n with h0 | hn
  · subst h0
    simp [jsCeilDiv, Nat.div_eq_of_lt (by omega : d - 1 < d)]
  · have hq : jsCeilDiv n d = (n - 1) / d + 1 := by
      unfold jsCeilDiv
      have harr : n + d - 1 = (n - 1) + d := by omega
      rw [harr, Nat.add_div_right _ hd]
    have h1 : d * ((n - 1) / d) + (n - 1) % d = n - 1 := Nat.div_add_mod _ _
    have h2 : (n - 1) % d < d := Nat.mod_lt _ hd
    have hub : n ≤ ((n - 1) / d + 1) * d := by
      have hle : n ≤ d * ((n - 1) / d) + d := by omega
      calc n ≤ d * ((n - 1) / d) + d := hle
        _ = ((n - 1) / d + 1) * d := by ring
    have hlb : ((n - 1) / d) * d < n := by
      have h3 : ((n - 1) / d) * d ≤ n - 1 := Nat.div_mul_le_self _ _
      omega
    set q := (n - 1) / d with hqdef
    rw [hq]
    symm
    rw [Int.ceil_eq_iff]
    have hdq : (0 : ℚ) < (d : ℚ) := by exact_mod_cast hd
    have hcast1 : (q : ℚ) * (d : ℚ) < (n : ℚ) := by exact_mod_cast hlb
    have hcast2 : (n : ℚ) ≤ ((q : ℚ) + 1) * (d : ℚ) := by exact_mod_cast hub
    constructor
    · rw [lt_div_iff₀ hdq]
      push_cast
      nlinarith [hcast1]
    · rw [div_le_iff₀ hdq]
      push_cast
      nlinarith [hcast2]

/-! ## Concrete randomness samples used by witnesses and counterexamples -/

/-- A fixed all-zero randomness sample for the dictionary simulator. -/
def dictRandZero : DictRand :=
  ⟨fun _ => 0, fun _ => 0, false, 0, 0, 0, false, 0, 0, 0⟩

/-- A fixed all-zero randomness sample for the generation simulator. -/
def genRandZero : GenRand :=
  ⟨fun _ => 0, fun _ => 0, 0, 0⟩

/-! ## Claim theorems -/

/-- C1: for every network whose encryption is `OPEN` or `WEP`, the overall
risk level surfaced in `enhancedPasswordStrengthAssessment(...).riskLevel`
(computed by `calculateOverallRiskLevel`) is `CRITICAL`, regardless of the
ssid, vendor, and the randomised outcomes of the dictionary and generation
simulations. -/
theorem open_or_wep_riskLevel_critical (ssid : String) (net : NetworkInfo)
    (router : Option RouterInfo) (year : Nat) (choice : Nat → Nat)
    (drand : DictRand) (grand : GenRand)
    (h : net.encryption = "OPEN" ∨ net.encryption = "WEP") :
    (enhancedPasswordStrengthAssessment ssid net router year choice drand grand).riskLevel
      = "CRITICAL" := by
  rcases h with h | h
  · simp [enhancedPasswordStrengthAssessment, calculateOverallRiskLevel, h]
  · simp [enhancedPasswordStrengthAssessment, calculateOverallRiskLevel, h,
      (by decide : ("WEP" : String) ≠ "OPEN")]

/-- Witness for C1 at a concrete OPEN network. -/
theorem open_riskLevel_critical_example :
    (enhancedPasswordStrengthAssessment "TestNet" ⟨"OPEN"⟩ none 2025 (fun _ => 0)
      dictRandZero genRandZero).riskLevel = "CRITICAL" :=
  open_or_wep_riskLevel_critical "TestNet" ⟨"OPEN"⟩ none 2025 (fun _ => 0)
    dictRandZero genRandZero (Or.inl rfl)

/-- C2: `simulateDictionaryAttack` reports `attackSuccess` exactly when its
`potentialMatches` list is non-empty or the encryption is `WEP` or `OPEN`. -/
theorem attackSuccess_iff_matches_or_weak_encryption (ssid : String)
    (net : NetworkInfo) (router : Option RouterInfo) (rand : DictRand) :
    (simulateDictionaryAttack ssid net router rand).attackSuccess = true ↔
      ((simulateDictionaryAttack ssid net router rand).potentialMatches ≠ [] ∨
        net.encryption = "WEP" ∨ net.encryption = "OPEN") := by
  simp only [simulateDictionaryAttack, Bool.or_eq_true, decide_eq_true_eq, beq_iff_eq]
  rw [List.length_pos]

/-- C4: the estimated total attack time of `simulateDictionaryAttack` is the
ceiling of the tested-password count divided by the per-encryption attack
speed (WPA3 100/s, WPA2 1000/s, WPA 5000/s, 10000/s otherwise). -/
theorem timeToBreak_eq_ceil_testedPasswords_div_speed (ssid : String)
    (net : NetworkInfo) (router : Option RouterInfo) (rand : DictRand) :
    ((simulateDictionaryAttack ssid net router rand).timeToBreak : ℤ) =
      ⌈((simulateDictionaryAttack ssid net router rand).testedPasswords : ℚ) /
        (if net.encryption = "WPA3" then (100 : ℚ)
         else if net.encryption = "WPA2" then 1000
         else if net.encryption = "WPA" then 5000
         else 10000)⌉ := by
  simp only [simulateDictionaryAttack]
  split_ifs with h1 h2 h3
  · exact jsCeilDiv_eq_ceil _ 100 (by norm_num)
  · exact jsCeilDiv_eq_ceil _ 1000 (by norm_num)
  · exact jsCeilDiv_eq_ceil _ 5000 (by norm_num)
  · exact jsCeilDiv_eq_ceil _ 10000 (by norm_num)

/-- The sum of all per-category counts recorded in `passwordCategories`
(the `routerDefaults` key contributes only when present). -/
def categorySum (c : PasswordCategories) : Nat :=
  c.routerDefaults.getD 0 + c.ssidBased + c.locationBased + c.dateBased + c.brandBased

set_option maxRecDepth 1000000

/-- C3 counterexample: at a concrete input the deduplicated tested-password
count (182) differs from the sum of the per-category counts (64), because
the `top100` list has no category entry and deduplication shrinks the
combined list. -/
theorem testedPasswords_ne_categorySum_example :
    (simulateDictionaryAttack "" ⟨"WPA2"⟩ none dictRandZero).testedPasswords ≠
      categorySum (simulateDictionaryAttack "" ⟨"WPA2"⟩ none dictRandZero).passwordCategories := by
  decide

/-- C3 amended: the deduplicated tested-password count is at most (in
general strictly below) the length of the uncategorised `top100` list plus
the sum of the per-category counts; the counts themselves are recorded
before deduplication. -/
theorem testedPasswords_le_top100_add_categorySum (ssid : String)
    (net : NetworkInfo) (router : Option RouterInfo) (rand : DictRand) :
    (simulateDictionaryAttack ssid net router rand).testedPasswords ≤
      top100.length +
        categorySum (simulateDictionaryAttack ssid net router rand).passwordCategories := by
  have h := jsSetDedup_length_le (top100 ++ ((vendorDefaultsOf router).elim [] Prod.snd)
    ++ ssidPasswordsFor ssid ++ locationBased ++ datePatterns ++ brandNames)
  simp only [simulateDictionaryAttack, dictionaryCandidateList, categorySum]
  simp only [List.length_append] at h
  rcases hv : vendorDefaultsOf router with _ | p
  · simp only [hv, Option.elim, Option.map_none', Option.getD_none,
      List.length_nil] at h ⊢
    omega
  · simp only [hv, Option.elim, Option.map_some', Option.getD_some] at h ⊢
    omega

/-- C5: every password produced by `generatePatternBasedPasswords` has
length at most 16, for every ssid (including the empty string), network,
year and leet-speak randomness. -/
theorem patternBased_length_le_16 (ssid : String) (net : NetworkInfo)
    (year : Nat) (choice : Nat → Nat) :
    ∀ p ∈ generatePatternBasedPasswords ssid net year choice, p.length ≤ 16 := by
  intro p hp
  simp only [generatePatternBasedPasswords] at hp
  rw [jsSetDedup_mem, List.mem_flatMap] at hp
  obtain ⟨base, _, hmem⟩ := hp
  rw [List.mem_filter] at hmem
  exact of_decide_eq_true hmem.2

/-- Witness for C5 at a concrete generated password. -/
theorem patternBased_length_le_16_example :
    "a2025!0000000000" ∈ generatePatternBasedPasswords "a" ⟨"WPA2"⟩ 2025 (fun _ => 0) ∧
      "a2025!0000000000".length ≤ 16 :=
  ⟨by decide,
   patternBased_length_le_16 "a" ⟨"WPA2"⟩ 2025 (fun _ => 0) "a2025!0000000000" (by decide)⟩

/-- C6: all three generator functions return lists without duplicate
entries, for every ssid, network, router, year and leet-speak randomness. -/
theorem generators_nodup (ssid : String) (net : NetworkInfo)
    (router : Option RouterInfo) (year : Nat) (choice : Nat → Nat) :
    (generateWordCombinations ssid router).Nodup ∧
      (generatePatternBasedPasswords ssid net year choice).Nodup ∧
      (generateHybridPasswords ssid net router).Nodup :=
  ⟨jsSetDedup_nodup _, jsSetDedup_nodup _, jsSetDedup_nodup _⟩

/-- C7 counterexample: with the complexity option left unspecified the
legacy simulator uses the `'medium'` default and a 62-symbol charset, not
the 26-symbol default tier. -/
theorem unspecified_complexity_charset_62_example :
    (simulateBruteForceAttack "WPA2" ⟨none, none, none, none⟩).passwordMetrics.charsetSize = 62 ∧
      (simulateBruteForceAttack "WPA2" ⟨none, none, none, none⟩).passwordMetrics.charsetSize ≠ 26 := by
  exact ⟨by decide, by decide⟩

/-- C7 amended: the legacy simulator applies the fixed charset table to
the lowercased complexity tier — it yields 36 when that lowercasing gives
`'low'`, 62 for `'medium'`, 95 for `'high'` and 26 for any other supplied
tier string — while an unspecified complexity defaults to `'medium'` and
therefore 62, not 26. -/
theorem charset_table_with_medium_default (encryption : String) (options : BFOptions) :
    ((options.passwordComplexity = none →
        (simulateBruteForceAttack encryption options).passwordMetrics.charsetSize = 62) ∧
     (∀ s, options.passwordComplexity = some s → strToLower s = "low" →
        (simulateBruteForceAttack encryption options).passwordMetrics.charsetSize = 36) ∧
     (∀ s, options.passwordComplexity = some s → strToLower s = "medium" →
        (simulateBruteForceAttack encryption options).passwordMetrics.charsetSize = 62) ∧
     (∀ s, options.passwordComplexity = some s → strToLower s = "high" →
        (simulateBruteForceAttack encryption options).passwordMetrics.charsetSize = 95) ∧
     (∀ s, options.passwordComplexity = some s →
        strToLower s ≠ "low" → strToLower s ≠ "medium" → strToLower s ≠ "high" →
        (simulateBruteForceAttack encryption options).passwordMetrics.charsetSize = 26)) := by
  refine ⟨?_, ?_, ?_, ?_, ?_⟩
  · intro h
    simp only [simulateBruteForceAttack, h]
    decide
  · intro s hs hl
    simp only [simulateBruteForceAttack, hs, Option.getD_some, getCharsetSize, hl]
    decide
  · intro s hs hl
    simp only [simulateBruteForceAttack, hs, Option.getD_some, getCharsetSize, hl]
    decide
  · intro s hs hl
    simp only [simulateBruteForceAttack, hs, Option.getD_some, getCharsetSize, hl]
    decide
  · intro s hs hlow hmed hhigh
    simp only [simulateBruteForceAttack, hs, Option.getD_some,
      getCharsetSize, if_neg hlow, if_neg hmed, if_neg hhigh]

/-- Witness for C7 (amended) at a concrete mixed-case low-complexity
option, which the table resolves case-insensitively to 36. -/
theorem charset_low_example :
    (simulateBruteForceAttack "WPA2" ⟨none, some "LOW", none, none⟩).passwordMetrics.charsetSize = 36 :=
  (charset_table_with_medium_default "WPA2" ⟨none, some "LOW", none, none⟩).2.1 "LOW" rfl (by decide)

/-- Shared evaluation: the legacy simulator on (WEP, length 8, high
complexity) lands in the topmost feasibility bucket, since
95^8 / 10^6 ≈ 6.6e9 seconds. -/
lemma wepHigh8_feasibility_eval :
    (simulateBruteForceAttack "WEP" ⟨some 8, some "high", none, none⟩).attackSimulation.feasibilityAssessment
      = "VERY STRONG - Password would take decades to break" := by
  have h1 : getCharsetSize "high" = 95 := by decide
  have e1 : ("WEP" : String) ≠ "WPA3" := by decide
  have e2 : ("WEP" : String) ≠ "WPA2" := by decide
  have e3 : ("WEP" : String) ≠ "WPA" := by decide
  simp only [simulateBruteForceAttack, Option.getD_some, Option.getD_none,
    calculateAttemptsPerSecond, assessAttackFeasibility, h1]
  norm_num [e1, e2, e3]

/-- C8 counterexample: the (WEP, passwordLength 8, complexityTier high)
simulation does not fall in the CRITICAL bucket — 95^8 combinations at
10^6 attempts per second take far more than 3600 seconds. -/
theorem wep_high8_not_critical_example :
    (simulateBruteForceAttack "WEP" ⟨some 8, some "high", none, none⟩).attackSimulation.feasibilityAssessment
        ≠ "CRITICAL - Password can be broken in less than an hour" ∧
      ¬(((95 : ℚ) ^ (8 : ℕ)) / 1000000 < 3600) := by
  refine ⟨?_, by norm_num⟩
  rw [wepHigh8_feasibility_eval]
  decide

/-- C8 amended: the (WEP, passwordLength 8, complexityTier high) simulation
yields the VERY STRONG assessment, the computed time exceeding even the
ten-year (315360000 s) threshold. -/
theorem wep_high8_very_strong :
    (simulateBruteForceAttack "WEP" ⟨some 8, some "high", none, none⟩).attackSimulation.feasibilityAssessment
        = "VERY STRONG - Password would take decades to break" ∧
      (315360000 : ℚ) ≤ ((95 : ℚ) ^ (8 : ℕ)) / 1000000 :=
  ⟨wepHigh8_feasibility_eval, by norm_num⟩

/-- C9: the legacy simulator performs no boundary validation of
`passwordLength` — a negative value such as `-1` is truthy, bypasses the
`|| 8` default, and is used directly as the exponent, producing the
nonsensical password space 62^(-1) = 1/62. -/
theorem negative_passwordLength_used_directly :
    (simulateBruteForceAttack "WPA2" ⟨some (-1), none, none, none⟩).passwordMetrics.estimatedLength = -1 ∧
      ¬(0 < (simulateBruteForceAttack "WPA2" ⟨some (-1), none, none, none⟩).passwordMetrics.estimatedLength) ∧
      (simulateBruteForceAttack "WPA2" ⟨some (-1), none, none, none⟩).passwordMetrics.possibleCombinations = 1 / 62 := by
  refine ⟨by decide, by decide, ?_⟩
  have h1 : getCharsetSize "medium" = 62 := by decide
  simp only [simulateBruteForceAttack, Option.getD_some, Option.getD_none,
    calculateAttemptsPerSecond, h1]
  norm_num

/-- C10: with an empty ssid, `simulateDictionaryAttack` still returns a
populated result, the SSID pattern templates are instantiated with the
substitute word "network" (the candidate list is exactly the one a network
literally named "network" would get), and no potential match carries the
'SSID-based' category because the SSID vulnerability check is skipped. -/
theorem empty_ssid_dictionary_behaviour (net : NetworkInfo)
    (router : Option RouterInfo) (rand : DictRand) :
    0 < (simulateDictionaryAttack "" net router rand).testedPasswords ∧
      dictionaryCandidateList "" router = dictionaryCandidateList "network" router ∧
      (simulateDictionaryAttack "" net router rand).potentialMatches.all
        (fun m => !(m.category == "SSID-based")) = true := by
  refine ⟨?_, ?_, ?_⟩
  · have hm : "password" ∈ dictionaryCandidateList "" router := by
      rw [dictionaryCandidateList, jsSetDedup_mem]
      simp only [List.mem_append]
      exact Or.inl (Or.inl (Or.inl (Or.inl (Or.inl (by decide)))))
    simp only [simulateDictionaryAttack]
    exact List.length_pos_of_mem hm
  · rw [dictionaryCandidateList, dictionaryCandidateList, ssidPasswordsFor, ssidPasswordsFor,
      (by decide : jsFalsyOr "" "network" = jsFalsyOr "network" "network")]
  · simp only [simulateDictionaryAttack]
    rcases hv : vendorDefaultsOf router with _ | p <;>
      cases hb : rand.vendorDefaultFound <;>
        cases hw : rand.weakFound <;>
          simp [hv, hb, hw]
